import Mathlib

/-!
Shallow embedding of the HC-12 command-mode protocol engine
(`src/hc_12.rs`): the `BaudRate` and `TransmissionMode` enumerations, the
`Hc12` device state, the `Command` session lifecycle (`Command::new`,
`Drop for Command`) and the protocol operations `test`, `auto_baud`,
`set_baud`, `set_transmission_mode`, `set_default`.

Modelling conventions:
- Machine integers (`u32`) are `Nat` with explicit `< 2^32` bounds where
  overflow or parse range matters.
- The UART transport (`clear_rx`, `write`, `read`, `change_baudrate`) is an
  external collaborator; it is modelled by an `Oracle` record of response
  functions.  A transport-level `EspError` is modelled as a `Nat` error code.
- `String::from_utf8_lossy` means every read yields a decoded text string;
  the oracle returns that decoded string directly.
- Time is modelled at millisecond granularity as `Nat` instants
  (`Instant::now()` is a parameter of the session entry/exit functions).
- A Rust panic (out-of-bounds slice, `expect`) is modelled by the dedicated
  `Outcome.fatal` constructor: it is not an `Err` return and on this
  target (ESP-IDF) aborts, so destructors do not run past it.
-/

namespace Hc12Model

deriving instance DecidableEq for Except

/-- The `Hc12Error` enum of `src/hc_12.rs` (thiserror variants). -/
inductive Hc12Error where
  | Test
  | BaudRate
  | AutoBaudRate
  | TransmissionMode
  | Default
deriving DecidableEq

/-- The `anyhow::Error` values that can flow out of the operations: a
transport-level `EspError` (carried verbatim as its code), a protocol-level
`Hc12Error`, or the `ParseIntError` raised by `str::parse::<u32>` in
`set_transmission_mode`. -/
inductive AppError where
  | transport : Nat → AppError
  | hc12 : Hc12Error → AppError
  | parseInt : AppError
deriving DecidableEq

/-- The `BaudRate` enum (closed set of eight rates, `Baud9600` default). -/
inductive BaudRate where
  | Baud1200
  | Baud2400
  | Baud4800
  | Baud9600
  | Baud19200
  | Baud38400
  | Baud57600
  | Baud115200
deriving DecidableEq

/-- `impl From<BaudRate> for u32` (also the `From<&BaudRate>` table). -/
def BaudRate.toNat : BaudRate → Nat
  | .Baud1200 => 1200
  | .Baud2400 => 2400
  | .Baud4800 => 4800
  | .Baud9600 => 9600
  | .Baud19200 => 19200
  | .Baud38400 => 38400
  | .Baud57600 => 57600
  | .Baud115200 => 115200

/-- The `TransmissionMode` enum (`Fu1`..`Fu4`). -/
inductive TransmissionMode where
  | Fu1
  | Fu2
  | Fu3
  | Fu4
deriving DecidableEq

/-- `impl From<&TransmissionMode> for u32`. -/
def TransmissionMode.toNat : TransmissionMode → Nat
  | .Fu1 => 1
  | .Fu2 => 2
  | .Fu3 => 3
  | .Fu4 => 4

/-- Decimal digit character for `d < 10`. -/
def digitChar (d : Nat) : Char := Char.ofNat (48 + d)

/-- Decimal digits of `n`, most significant first; `fuel` bounds the digit
count (10 digits suffice for any `u32`).  Models the `Display` rendering of
`u32` used by `format!("{}", _)` in the source. -/
def decimalDigits : Nat → Nat → List Char
  | 0, _ => []
  | fuel + 1, n =>
    if n < 10 then [digitChar n]
    else decimalDigits fuel (n / 10) ++ [digitChar (n % 10)]

/-- Decimal numeral string of `n` (no leading zeros), as produced by
`format!("{}", n)` for a `u32` value `n`. -/
def decimalStr (n : Nat) : String := String.mk (decimalDigits 10 n)

/-- The device state of `struct Hc12`: the local UART baud rate held by the
`UartDriver` (a `u32`), the level of the `set` mode pin (`modeLow = true`
means the pin is driven low, i.e. command mode asserted), and the
`last_command_exit` instant in milliseconds. -/
structure Device where
  baudRate : Nat
  modeLow : Bool
  lastCommandExit : Nat
deriving DecidableEq

/-- Transport oracle: the external UART/GPIO collaborator of §4.1.  Each
field gives the outcome of one driver primitive as a function of the command
being exchanged and the local UART rate in effect.  `some e` / `.error e`
is a transport-level `EspError` with code `e`; `read` returns the decoded
(`from_utf8_lossy`) contents of the at-most-14-byte read on success. -/
structure Oracle where
  clearRx : Nat → Option Nat
  write : String → Nat → Option Nat
  read : String → Nat → Except Nat String
  changeBaud : Nat → Option Nat

/-- `Command::send_command`: clear the receive buffer, write the ASCII
command, wait the settle delay, then read and decode the reply.  Each
driver call's `?` propagates its transport error verbatim. -/
def sendCommand (o : Oracle) (cmd : String) (rate : Nat) : Except AppError String :=
  match o.clearRx rate with
  | some e => .error (.transport e)
  | none =>
    match o.write cmd rate with
    | some e => .error (.transport e)
    | none =>
      match o.read cmd rate with
      | .error e => .error (.transport e)
      | .ok s => .ok s

/-- `Command::test`: sends `AT`; succeeds iff the reply is exactly
`OK\r\n`, otherwise fails with `Hc12Error::Test`.  Mutates nothing. -/
def test (o : Oracle) (d : Device) : Except AppError Unit × Device :=
  match sendCommand o "AT" d.baudRate with
  | .error e => (.error e, d)
  | .ok result =>
    if result = "OK\r\n" then (.ok (), d) else (.error (.hc12 .Test), d)

/-- `Command::set_default`: sends `AT+DEFAULT`; succeeds iff the reply is
exactly `OK+DEFAULT\r\n`, otherwise fails with `Hc12Error::Default`.
Touches no device bookkeeping. -/
def set_default (o : Oracle) (d : Device) : Except AppError Unit × Device :=
  match sendCommand o "AT+DEFAULT" d.baudRate with
  | .error e => (.error e, d)
  | .ok result =>
    if result = "OK+DEFAULT\r\n" then (.ok (), d)
    else (.error (.hc12 .Default), d)

/-- `Command::set_baud`: sends `AT+B<numeral>`; on the exact reply
`OK+B<numeral>\r\n` changes the local UART rate to the requested value, any
other reply fails with `Hc12Error::BaudRate` leaving the rate unchanged. -/
def set_baud (o : Oracle) (br : BaudRate) (d : Device) :
    Except AppError Unit × Device :=
  let cmd := "AT+B" ++ decimalStr (BaudRate.toNat br)
  match sendCommand o cmd d.baudRate with
  | .error e => (.error e, d)
  | .ok result =>
    if result = "OK+B" ++ decimalStr (BaudRate.toNat br) ++ "\r\n" then
      match o.changeBaud (BaudRate.toNat br) with
      | some e => (.error (.transport e), d)
      | none => (.ok (), { d with baudRate := BaudRate.toNat br })
    else (.error (.hc12 .BaudRate), d)

/-- The candidate array iterated by `Command::auto_baud`, in source order. -/
def autoBaudCandidates : List BaudRate :=
  [.Baud1200, .Baud2400, .Baud4800, .Baud9600,
   .Baud19200, .Baud38400, .Baud57600, .Baud115200]

/-- The loop body of `Command::auto_baud`: for each candidate, change the
local UART rate to it (`?` on transport failure), then probe with
`test()`; `is_ok()` keeps only the success/failure bit of the probe, so a
failing probe — protocol or transport — falls through to the next
candidate.  An exhausted list fails with `Hc12Error::AutoBaudRate`. -/
def autoBaudLoop (o : Oracle) :
    List BaudRate → Device → Except AppError BaudRate × Device
  | [], d => (.error (.hc12 .AutoBaudRate), d)
  | br :: rest, d =>
    match o.changeBaud (BaudRate.toNat br) with
    | some e => (.error (.transport e), d)
    | none =>
      let d1 : Device := { d with baudRate := BaudRate.toNat br }
      match (test o d1).1 with
      | .ok _ => (.ok br, d1)
      | .error _ => autoBaudLoop o rest d1

/-- `Command::auto_baud`. -/
def auto_baud (o : Oracle) (d : Device) : Except AppError BaudRate × Device :=
  autoBaudLoop o autoBaudCandidates d

/-- Rust `str::split(",")` on the character list of a string: the comma-
delimited fields, in order; an input with no comma is the single field
`[s]`, and adjacent/trailing commas produce empty fields. -/
def splitOnComma : List Char → List (List Char)
  | [] => [[]]
  | c :: rest =>
    if c = ',' then [] :: splitOnComma rest
    else
      match splitOnComma rest with
      | [] => [[c]]
      | g :: gs => (c :: g) :: gs

/-- `a.isPrefixOf b` on character lists (Boolean). -/
def isPrefixOfChars : List Char → List Char → Bool
  | [], _ => true
  | _ :: _, [] => false
  | a :: as, b :: bs => a = b && isPrefixOfChars as bs

/-- Rust `str::contains(pat)` for an ASCII `pat`: `pat` occurs as a
contiguous substring of `hay`.  (For an ASCII pattern, byte-level and
character-level containment coincide, since UTF-8 continuation bytes are
never ASCII.) -/
def containsSub (hay pat : List Char) : Bool :=
  isPrefixOfChars pat hay ||
    match hay with
    | [] => false
    | _ :: rest => containsSub rest pat

/-- Rust `&s[1..]` on the second comma field: byte-slicing from index 1.
`none` models the panic: index 1 is out of bounds when the field is empty,
and not a character boundary when the first character is multi-byte
(possible after `from_utf8_lossy`, whose replacement character is
three bytes). -/
def sliceFromOne : List Char → Option (List Char)
  | [] => none
  | c :: rest => if c.toNat < 128 then some rest else none

/-- Rust `str::trim` for the ASCII replies at hand: strip leading and
trailing whitespace characters. -/
def trimChars (s : List Char) : List Char :=
  ((s.dropWhile Char.isWhitespace).reverse.dropWhile Char.isWhitespace).reverse

/-- Accumulate decimal digits into a number. -/
def digitsToNat (s : List Char) : Nat :=
  s.foldl (fun a c => a * 10 + (c.toNat - 48)) 0

/-- Rust `str::parse::<u32>`: an optional leading `+`, then one or more
decimal digits, no surrounding whitespace; rejects the empty string, any
non-digit, and values above `u32::MAX`. -/
def parseU32 (s : List Char) : Option Nat :=
  let s1 := match s with
    | '+' :: rest => rest
    | other => other
  if s1 = [] then none
  else if s1.all Char.isDigit then
    if digitsToNat s1 < 4294967296 then some (digitsToNat s1) else none
  else none

/-- Result of `Command::set_transmission_mode`, which unlike the other
operations can also panic: `ok`/`err` are the `Result` cases, `fatal`
models the panic (the out-of-bounds slice), which on this target aborts. -/
inductive Outcome (α : Type) where
  | ok : α → Outcome α
  | err : AppError → Outcome α
  | fatal : Outcome α
deriving DecidableEq

/-- `Command::set_transmission_mode`: sends `AT+FU<digit>`; a reply not
containing `OK+FU<digit>` fails with `Hc12Error::TransmissionMode`.  When
the reply has a second comma-delimited field, that field is sliced from
byte 1 (panicking if out of bounds), trimmed, parsed as a `u32` (`?` on
`ParseIntError`), and on success the local UART rate is changed to it. -/
def set_transmission_mode (o : Oracle) (tm : TransmissionMode) (d : Device) :
    Outcome Unit × Device :=
  let cmd := "AT+FU" ++ decimalStr (TransmissionMode.toNat tm)
  match sendCommand o cmd d.baudRate with
  | .error e => (.err e, d)
  | .ok result =>
    if containsSub result.data ("OK+FU" ++ decimalStr (TransmissionMode.toNat tm)).data then
      match (splitOnComma result.data).get? 1 with
      | none => (.ok (), d)
      | some field =>
        match sliceFromOne field with
        | none => (.fatal, d)
        | some tail =>
          match parseU32 (trimChars tail) with
          | none => (.err .parseInt, d)
          | some n =>
            match o.changeBaud n with
            | some e => (.err (.transport e), d)
            | none => (.ok (), { d with baudRate := n })
    else (.err (.hc12 .TransmissionMode), d)

/-- The quiet window of `Command::new`: `Duration::from_millis(201)`. -/
def quietWindowMs : Nat := 201

/-- What `Command::new` records before asserting command mode: how long it
slept waiting out the quiet window, and the instant at which it then drove
the mode line low. -/
structure EntryTrace where
  waitMs : Nat
  assertTime : Nat
deriving DecidableEq

/-- `Command::new` at instant `now`: if less than the 201 ms quiet window
has elapsed since `last_command_exit`, sleep for the remainder
(`checked_sub`; no sleep once the window has fully elapsed), then drive
the mode line low and wait the 200 ms settle delay. -/
def commandNew (now : Nat) (d : Device) : EntryTrace × Device :=
  let elapsed := now - d.lastCommandExit
  let wait := quietWindowMs - elapsed
  ({ waitMs := wait, assertTime := now + wait }, { d with modeLow := true })

/-- `Drop for Command` at instant `now`: drive the mode line back high and
reset `last_command_exit` to the current instant. -/
def commandDrop (now : Nat) (d : Device) : Device :=
  { d with modeLow := false, lastCommandExit := now }

/-- The protocol operations a session can run (arguments included). -/
inductive SessionOp where
  | opTest
  | opAutoBaud
  | opSetBaud (br : BaudRate)
  | opSetTransmissionMode (tm : TransmissionMode)
  | opSetDefault
deriving DecidableEq

/-- How a session's operation ended: normally, with an `Err` early
return, or in a panic (which aborts, so no destructor runs after it). -/
inductive OpStatus where
  | success
  | failed : AppError → OpStatus
  | aborted
deriving DecidableEq

/-- Run one protocol operation against the device, reduced to its status
and the resulting device state. -/
def runOp (o : Oracle) : SessionOp → Device → OpStatus × Device
  | .opTest, d =>
    match test o d with
    | (.ok _, d1) => (.success, d1)
    | (.error e, d1) => (.failed e, d1)
  | .opAutoBaud, d =>
    match auto_baud o d with
    | (.ok _, d1) => (.success, d1)
    | (.error e, d1) => (.failed e, d1)
  | .opSetBaud br, d =>
    match set_baud o br d with
    | (.ok _, d1) => (.success, d1)
    | (.error e, d1) => (.failed e, d1)
  | .opSetTransmissionMode tm, d =>
    match set_transmission_mode o tm d with
    | (.ok _, d1) => (.success, d1)
    | (.err e, d1) => (.failed e, d1)
    | (.fatal, d1) => (.aborted, d1)
  | .opSetDefault, d =>
    match set_default o d with
    | (.ok _, d1) => (.success, d1)
    | (.error e, d1) => (.failed e, d1)

/-- A whole session: `Command::new` at instant `tEnter`, one operation,
then the `Drop` at instant `tExit` — unless the operation panicked, in
which case the abort prevents the destructor from running. -/
def runSession (o : Oracle) (op : SessionOp) (tEnter tExit : Nat) (d : Device) :
    OpStatus × Device :=
  let (_, d1) := commandNew tEnter d
  let (st, d2) := runOp o op d1
  match st with
  | .aborted => (.aborted, d2)
  | st1 => (st1, commandDrop tExit d2)

/-- Whether the `test()` probe succeeds against oracle `o` at local UART
rate `r`: the probe transaction answers exactly `OK\r\n`.  This is the
Boolean that `self.test().is_ok()` reduces the probe to inside
`auto_baud`. -/
def testOk (o : Oracle) (r : Nat) : Bool :=
  match sendCommand o "AT" r with
  | .error _ => false
  | .ok s => if s = "OK\r\n" then true else false

/-- A device in transparent mode at 9600 baud, used as a concrete state
for witnesses. -/
def dev0 : Device := { baudRate := 9600, modeLow := false, lastCommandExit := 0 }

/-- A fault-free module that answers every command with its happy-path
reply. -/
def okOracle : Oracle :=
  { clearRx := fun _ => none
    write := fun _ _ => none
    read := fun cmd _ =>
      if cmd = "AT" then .ok "OK\r\n"
      else if cmd = "AT+DEFAULT" then .ok "OK+DEFAULT\r\n"
      else if cmd = "AT+B9600" then .ok "OK+B9600\r\n"
      else .ok ""
    changeBaud := fun _ => none }

/-- A module that never answers anything (every read decodes to the empty
string); no transport faults. -/
def failOracle : Oracle :=
  { clearRx := fun _ => none
    write := fun _ _ => none
    read := fun _ _ => .ok ""
    changeBaud := fun _ => none }

/-- A module whose `AT+FU3` reply carries a forced-baud second field:
`OK+FU3,B9600\r\n`; replies `OK+FU1\r\n` to `AT+FU1`. -/
def fu3Oracle : Oracle :=
  { clearRx := fun _ => none
    write := fun _ _ => none
    read := fun cmd _ =>
      if cmd = "AT+FU3" then .ok "OK+FU3,B9600\r\n"
      else if cmd = "AT+FU1" then .ok "OK+FU1\r\n"
      else .ok ""
    changeBaud := fun _ => none }

/-- A module whose `AT+FU3` reply has a non-numeric second field `XY`:
the marker `OK+FU3` is contained, yet the trailing parse fails. -/
def fu3GarbageOracle : Oracle :=
  { clearRx := fun _ => none
    write := fun _ _ => none
    read := fun _ _ => .ok "OK+FU3,XY"
    changeBaud := fun _ => none }

/-- A module whose `AT+FU3` reply ends in a bare comma: the second
comma-delimited field is present but empty. -/
def fu3EmptyFieldOracle : Oracle :=
  { clearRx := fun _ => none
    write := fun _ _ => none
    read := fun _ _ => .ok "OK+FU3,"
    changeBaud := fun _ => none }

/-- A module that suffers a transport fault (`EspError` code 77) on the
read at 1200 baud, answers `OK\r\n` at 2400 baud, and nothing elsewhere. -/
def probeFaultOracle : Oracle :=
  { clearRx := fun _ => none
    write := fun _ _ => none
    read := fun _ r =>
      if r = 1200 then .error 77
      else if r = 2400 then .ok "OK\r\n"
      else .ok ""
    changeBaud := fun _ => none }

/-- A transport in which clearing the receive buffer and changing the
local baud rate both fail with `EspError` code 5. -/
def brokenOracle : Oracle :=
  { clearRx := fun _ => some 5
    write := fun _ _ => none
    read := fun _ _ => .ok ""
    changeBaud := fun _ => some 5 }

/-! ## Supporting lemmas -/

theorem test_fst_of_testOk (o : Oracle) (d : Device)
    (h : testOk o d.baudRate = true) : (test o d).1 = .ok () := by
  unfold testOk at h
  unfold test
  cases hs : sendCommand o "AT" d.baudRate with
  | error e => rw [hs] at h; cases h
  | ok s =>
    rw [hs] at h
    by_cases hse : s = "OK\r\n"
    · simp [hse]
    · simp [hse] at h

theorem test_fst_of_not_testOk (o : Oracle) (d : Device)
    (h : testOk o d.baudRate = false) : ∃ e, (test o d).1 = .error e := by
  unfold testOk at h
  unfold test
  cases hs : sendCommand o "AT" d.baudRate with
  | error e => exact ⟨e, rfl⟩
  | ok s =>
    rw [hs] at h
    by_cases hse : s = "OK\r\n"
    · simp [hse] at h
    · exact ⟨.hc12 .Test, by simp [hse]⟩

theorem test_snd (o : Oracle) (d : Device) : (test o d).2 = d := by
  unfold test
  cases hs : sendCommand o "AT" d.baudRate with
  | error e => rfl
  | ok s => by_cases hse : s = "OK\r\n" <;> simp [hse]

/-- Behaviour of the `auto_baud` loop over any candidate list, assuming
the local rate changes themselves do not fault: the first candidate whose
probe succeeds is returned with the device rate set to it, and if none
succeeds the loop fails with `AutoBaudRate`. -/
theorem autoBaudLoop_find (o : Oracle) (hcb : ∀ r, o.changeBaud r = none) :
    ∀ (l : List BaudRate) (d : Device),
      (∀ br, l.find? (fun c => testOk o (BaudRate.toNat c)) = some br →
          autoBaudLoop o l d = (.ok br, { d with baudRate := BaudRate.toNat br })) ∧
      (l.find? (fun c => testOk o (BaudRate.toNat c)) = none →
          (autoBaudLoop o l d).1 = .error (.hc12 .AutoBaudRate)) := by
  intro l
  induction l with
  | nil =>
    intro d
    refine ⟨fun br h => by simp [List.find?] at h, fun _ => rfl⟩
  | cons b rest ih =>
    intro d
    have hcb' := hcb (BaudRate.toNat b)
    cases hb : testOk o (BaudRate.toNat b) with
    | true =>
      have ht : (test o { d with baudRate := BaudRate.toNat b }).1 = .ok () :=
        test_fst_of_testOk o _ hb
      have hloop : autoBaudLoop o (b :: rest) d =
          (.ok b, { d with baudRate := BaudRate.toNat b }) := by
        unfold autoBaudLoop
        rw [hcb']
        simp only [ht]
      have hfind : (b :: rest).find? (fun c => testOk o (BaudRate.toNat c)) = some b :=
        List.find?_cons_of_pos rest hb
      constructor
      · intro br h
        rw [hfind] at h
        cases h
        exact hloop
      · intro h
        rw [hfind] at h
        cases h
    | false =>
      obtain ⟨e, he⟩ := test_fst_of_not_testOk o { d with baudRate := BaudRate.toNat b } hb
      have hloop : autoBaudLoop o (b :: rest) d =
          autoBaudLoop o rest { d with baudRate := BaudRate.toNat b } := by
        conv_lhs => unfold autoBaudLoop
        rw [hcb']
        simp only [he]
      have hfind : (b :: rest).find? (fun c => testOk o (BaudRate.toNat c)) =
          rest.find? (fun c => testOk o (BaudRate.toNat c)) :=
        List.find?_cons_of_neg rest (by simp [hb])
      constructor
      · intro br h
        rw [hfind] at h
        rw [hloop, (ih { d with baudRate := BaudRate.toNat b }).1 br h]
      · intro h
        rw [hfind] at h
        rw [hloop]
        exact (ih { d with baudRate := BaudRate.toNat b }).2 h

/-- When the `auto_baud` loop exhausts a candidate list and reports
`AutoBaudRate`, the device's local rate was left at the last candidate
tried (or untouched when the list was empty). -/
theorem autoBaudLoop_exhaust (o : Oracle) :
    ∀ (l : List BaudRate) (d d' : Device),
      autoBaudLoop o l d = (.error (.hc12 .AutoBaudRate), d') →
      (match l.getLast? with
       | none => d' = d
       | some br => d'.baudRate = BaudRate.toNat br) := by
  intro l
  induction l with
  | nil =>
    intro d d' h
    simpa [autoBaudLoop] using (congrArg Prod.snd h).symm
  | cons b rest ih =>
    intro d d' h
    cases hcb : o.changeBaud (BaudRate.toNat b) with
    | some e =>
      unfold autoBaudLoop at h
      rw [hcb] at h
      exact absurd (congrArg Prod.fst h) (by simp)
    | none =>
      cases ht : (test o { d with baudRate := BaudRate.toNat b }).1 with
      | ok u =>
        unfold autoBaudLoop at h
        rw [hcb] at h
        simp only [ht] at h
        exact absurd (congrArg Prod.fst h) (by simp)
      | error e =>
        have hrest : autoBaudLoop o rest { d with baudRate := BaudRate.toNat b } =
            (.error (.hc12 .AutoBaudRate), d') := by
          unfold autoBaudLoop at h
          rw [hcb] at h
          simpa only [ht] using h
        have := ih { d with baudRate := BaudRate.toNat b } d' hrest
        cases rest with
        | nil => simp_all [List.getLast?]
        | cons c cs => simpa [List.getLast?_cons_cons] using this

/-! ## Claims -/

/-- C5: session entry never asserts command mode early.  Whenever less
than the 201 ms quiet window has elapsed since the previous session's
exit, `Command::new` sleeps for exactly the remainder, so the mode line is
driven low no earlier than one full quiet window after the previous exit. -/
theorem command_new_waits_out_quiet_window (now : Nat) (d : Device)
    (hmono : d.lastCommandExit ≤ now)
    (hshort : now - d.lastCommandExit < quietWindowMs) :
    (commandNew now d).1.waitMs = quietWindowMs - (now - d.lastCommandExit) ∧
    0 < (commandNew now d).1.waitMs ∧
    (commandNew now d).1.assertTime = d.lastCommandExit + quietWindowMs ∧
    (commandNew now d).2.modeLow = true := by
  have h2 : (commandNew now d).1.assertTime =
      now + (quietWindowMs - (now - d.lastCommandExit)) := rfl
  refine ⟨rfl, ?_, ?_, rfl⟩
  · show 0 < quietWindowMs - (now - d.lastCommandExit)
    unfold quietWindowMs at *
    omega
  · rw [h2]
    unfold quietWindowMs at *
    omega

/-- Witness for C5: with the previous exit at instant 0 and re-entry
attempted at instant 100, the entry sleeps 101 ms and asserts the mode
line only at instant 201. -/
theorem command_new_waits_out_quiet_window_witness :
    (commandNew 100 dev0).1.waitMs = quietWindowMs - (100 - dev0.lastCommandExit) ∧
    0 < (commandNew 100 dev0).1.waitMs ∧
    (commandNew 100 dev0).1.assertTime = dev0.lastCommandExit + quietWindowMs ∧
    (commandNew 100 dev0).2.modeLow = true :=
  command_new_waits_out_quiet_window 100 dev0 (by decide) (by decide)

/-- C2: `set_baud` sends `AT+B<numeral>`; given the transaction's decoded
reply, it succeeds exactly when the reply is `OK+B<numeral>\r\n`, in which
case the local UART rate becomes the requested value; any other reply
fails with the baud-set error and leaves the device unchanged. -/
theorem set_baud_exact_reply_round_trip (o : Oracle) (br : BaudRate) (d : Device)
    (resp : String)
    (hs : sendCommand o ("AT+B" ++ decimalStr (BaudRate.toNat br)) d.baudRate = .ok resp)
    (hcb : o.changeBaud (BaudRate.toNat br) = none) :
    ((set_baud o br d).1 = .ok () ↔
        resp = "OK+B" ++ decimalStr (BaudRate.toNat br) ++ "\r\n") ∧
    (resp = "OK+B" ++ decimalStr (BaudRate.toNat br) ++ "\r\n" →
        set_baud o br d = (.ok (), { d with baudRate := BaudRate.toNat br })) ∧
    (resp ≠ "OK+B" ++ decimalStr (BaudRate.toNat br) ++ "\r\n" →
        set_baud o br d = (.error (.hc12 .BaudRate), d)) := by
  simp only [set_baud]
  rw [hs]
  by_cases hr : resp = "OK+B" ++ decimalStr (BaudRate.toNat br) ++ "\r\n"
  · simp [hr, hcb]
  · simp [hr]

/-- Witness for C2: requesting 9600 baud against a module answering
`OK+B9600\r\n` succeeds and records 9600 as the local rate. -/
theorem set_baud_exact_reply_round_trip_witness :
    ((set_baud okOracle .Baud9600 dev0).1 = .ok () ↔
        "OK+B9600\r\n" = "OK+B" ++ decimalStr (BaudRate.toNat .Baud9600) ++ "\r\n") ∧
    ("OK+B9600\r\n" = "OK+B" ++ decimalStr (BaudRate.toNat .Baud9600) ++ "\r\n" →
        set_baud okOracle .Baud9600 dev0 =
          (.ok (), { dev0 with baudRate := BaudRate.toNat .Baud9600 })) ∧
    ("OK+B9600\r\n" ≠ "OK+B" ++ decimalStr (BaudRate.toNat .Baud9600) ++ "\r\n" →
        set_baud okOracle .Baud9600 dev0 = (.error (.hc12 .BaudRate), dev0)) :=
  set_baud_exact_reply_round_trip okOracle .Baud9600 dev0 "OK+B9600\r\n"
    (by decide) (by decide)

/-- C7: `test` sends `AT` and succeeds exactly on the reply `OK\r\n`,
failing with the test error otherwise; `set_default` (factory reset) sends
`AT+DEFAULT` and succeeds exactly on the reply `OK+DEFAULT\r\n`, failing
with the reset error otherwise, and never touches the device's local
baud-rate bookkeeping. -/
theorem test_and_factory_reset_exact_replies (o : Oracle) (d : Device)
    (r1 r2 : String)
    (h1 : sendCommand o "AT" d.baudRate = .ok r1)
    (h2 : sendCommand o "AT+DEFAULT" d.baudRate = .ok r2) :
    ((test o d).1 = .ok () ↔ r1 = "OK\r\n") ∧
    (r1 ≠ "OK\r\n" → (test o d).1 = .error (.hc12 .Test)) ∧
    ((set_default o d).1 = .ok () ↔ r2 = "OK+DEFAULT\r\n") ∧
    (r2 ≠ "OK+DEFAULT\r\n" → (set_default o d).1 = .error (.hc12 .Default)) ∧
    (set_default o d).2 = d := by
  unfold test set_default
  rw [h1, h2]
  by_cases hr1 : r1 = "OK\r\n" <;> by_cases hr2 : r2 = "OK+DEFAULT\r\n" <;>
    simp [hr1, hr2]

/-- Witness for C7: against a module answering the happy-path replies,
`test` and `set_default` both succeed, and the reset leaves the device
record untouched. -/
theorem test_and_factory_reset_exact_replies_witness :
    ((test okOracle dev0).1 = .ok () ↔ "OK\r\n" = "OK\r\n") ∧
    ("OK\r\n" ≠ "OK\r\n" → (test okOracle dev0).1 = .error (.hc12 .Test)) ∧
    ((set_default okOracle dev0).1 = .ok () ↔ "OK+DEFAULT\r\n" = "OK+DEFAULT\r\n") ∧
    ("OK+DEFAULT\r\n" ≠ "OK+DEFAULT\r\n" →
        (set_default okOracle dev0).1 = .error (.hc12 .Default)) ∧
    (set_default okOracle dev0).2 = dev0 :=
  test_and_factory_reset_exact_replies okOracle dev0 "OK\r\n" "OK+DEFAULT\r\n"
    (by decide) (by decide)

/-- C4 counterexample: containment of the `OK+FU<digit>` marker is not
sufficient for success.  The reply `OK+FU3,XY` contains `OK+FU3`, yet
`set_transmission_mode` fails (the second field's numeral parse errors
out through `?`), refuting "succeeds iff the decoded response contains
`OK+FU<digit>`". -/
theorem set_transmission_mode_contains_not_sufficient :
    containsSub ("OK+FU3,XY").data
        ("OK+FU" ++ decimalStr (TransmissionMode.toNat .Fu3)).data = true ∧
    set_transmission_mode fu3GarbageOracle .Fu3 dev0 = (.err .parseInt, dev0) := by
  decide

/-- C4 (amended): `set_transmission_mode` sends `AT+FU<digit>`; a reply
not containing `OK+FU<digit>` fails with the transmission-mode error;
when the marker is contained: with no second comma-delimited field the
operation succeeds leaving the local rate unchanged, with a parseable
second field (sliced from byte 1 and trimmed) the local rate becomes the
parsed numeral with no further round-trip, and with an unparseable second
field the operation fails with the numeral-parse error. -/
theorem set_transmission_mode_marker_and_forced_rate (o : Oracle)
    (tm : TransmissionMode) (d : Device) (resp : String)
    (hs : sendCommand o ("AT+FU" ++ decimalStr (TransmissionMode.toNat tm))
        d.baudRate = .ok resp) :
    (containsSub resp.data
        ("OK+FU" ++ decimalStr (TransmissionMode.toNat tm)).data = false →
      set_transmission_mode o tm d = (.err (.hc12 .TransmissionMode), d)) ∧
    (containsSub resp.data
        ("OK+FU" ++ decimalStr (TransmissionMode.toNat tm)).data = true →
      ((splitOnComma resp.data).get? 1 = none →
          set_transmission_mode o tm d = (.ok (), d)) ∧
      (∀ f t n, (splitOnComma resp.data).get? 1 = some f →
          sliceFromOne f = some t →
          parseU32 (trimChars t) = some n →
          o.changeBaud n = none →
          set_transmission_mode o tm d = (.ok (), { d with baudRate := n })) ∧
      (∀ f t, (splitOnComma resp.data).get? 1 = some f →
          sliceFromOne f = some t →
          parseU32 (trimChars t) = none →
          set_transmission_mode o tm d = (.err .parseInt, d))) := by
  have hstep : set_transmission_mode o tm d =
      (if containsSub resp.data
          ("OK+FU" ++ decimalStr (TransmissionMode.toNat tm)).data = true then
        match (splitOnComma resp.data).get? 1 with
        | none => (.ok (), d)
        | some field =>
          match sliceFromOne field with
          | none => (.fatal, d)
          | some tail =>
            match parseU32 (trimChars tail) with
            | none => (.err .parseInt, d)
            | some n =>
              match o.changeBaud n with
              | some e => (.err (.transport e), d)
              | none => (.ok (), { d with baudRate := n })
      else (.err (.hc12 .TransmissionMode), d)) := by
    conv_lhs => simp only [set_transmission_mode]
    rw [hs]
  constructor
  · intro hc
    rw [hstep, if_neg (by simp only [hc]; decide)]
  · intro hc
    refine ⟨fun hn => ?_, fun f t n hf ht hp hcb => ?_, fun f t hf ht hp => ?_⟩
    · rw [hstep, if_pos hc, hn]
    · rw [hstep, if_pos hc]
      simp only [hf, ht, hp, hcb]
    · rw [hstep, if_pos hc]
      simp only [hf, ht, hp]

/-- Witness for C4 (amended): a simulated `OK+FU3,B9600\r\n` reply to
`AT+FU3` updates the local rate to 9600, and an `OK+FU1\r\n` reply to
`AT+FU1` leaves it unchanged. -/
theorem set_transmission_mode_marker_and_forced_rate_witness :
    set_transmission_mode fu3Oracle .Fu3 dev0 = (.ok (), { dev0 with baudRate := 9600 }) ∧
    set_transmission_mode fu3Oracle .Fu1 dev0 = (.ok (), dev0) := by
  constructor
  · exact ((set_transmission_mode_marker_and_forced_rate fu3Oracle .Fu3 dev0
      "OK+FU3,B9600\r\n" (by decide)).2 (by decide)).2.1
      ("B9600\r\n").data ("9600\r\n").data 9600 (by decide) (by decide)
      (by decide) (by decide)
  · exact ((set_transmission_mode_marker_and_forced_rate fu3Oracle .Fu1 dev0
      "OK+FU1\r\n" (by decide)).2 (by decide)).1 (by decide)

/-- C9: a successful-marker reply whose second comma-delimited field is
empty makes the byte slice `[1..]` out of bounds, so
`set_transmission_mode` ends in a panic instead of a `Result`; the
operation avoids the panic exactly under the precondition that any
present second field admits the slice (non-empty with a character
boundary after its first byte). -/
theorem set_transmission_mode_empty_field_oob (o : Oracle)
    (tm : TransmissionMode) (d : Device) (resp : String)
    (hs : sendCommand o ("AT+FU" ++ decimalStr (TransmissionMode.toNat tm))
        d.baudRate = .ok resp)
    (hc : containsSub resp.data
        ("OK+FU" ++ decimalStr (TransmissionMode.toNat tm)).data = true) :
    ((splitOnComma resp.data).get? 1 = some [] →
        (set_transmission_mode o tm d).1 = .fatal) ∧
    (∀ f, (splitOnComma resp.data).get? 1 = some f → sliceFromOne f ≠ none →
        (set_transmission_mode o tm d).1 ≠ .fatal) ∧
    ((splitOnComma resp.data).get? 1 = none →
        (set_transmission_mode o tm d).1 ≠ .fatal) := by
  have hstep : set_transmission_mode o tm d =
      (if containsSub resp.data
          ("OK+FU" ++ decimalStr (TransmissionMode.toNat tm)).data = true then
        match (splitOnComma resp.data).get? 1 with
        | none => (.ok (), d)
        | some field =>
          match sliceFromOne field with
          | none => (.fatal, d)
          | some tail =>
            match parseU32 (trimChars tail) with
            | none => (.err .parseInt, d)
            | some n =>
              match o.changeBaud n with
              | some e => (.err (.transport e), d)
              | none => (.ok (), { d with baudRate := n })
      else (.err (.hc12 .TransmissionMode), d)) := by
    conv_lhs => simp only [set_transmission_mode]
    rw [hs]
  refine ⟨fun hf => ?_, fun f hf hslice => ?_, fun hn => ?_⟩
  · rw [hstep, if_pos hc]
    simp only [hf]
    rfl
  · rw [hstep, if_pos hc]
    cases hsl : sliceFromOne f with
    | none => exact absurd hsl hslice
    | some t =>
      cases hp : parseU32 (trimChars t) with
      | none => simp only [hf, hsl, hp]; intro hcontra; cases hcontra
      | some n =>
        cases hcb : o.changeBaud n with
        | none => simp only [hf, hsl, hp, hcb]; intro hcontra; cases hcontra
        | some e => simp only [hf, hsl, hp, hcb]; intro hcontra; cases hcontra
  · rw [hstep, if_pos hc]
    simp only [hn]
    intro hcontra
    cases hcontra

/-- Witness for C9: the decoded reply `OK+FU3,` (second field present but
empty) makes `set_transmission_mode` panic. -/
theorem set_transmission_mode_empty_field_oob_witness :
    (set_transmission_mode fu3EmptyFieldOracle .Fu3 dev0).1 = .fatal :=
  (set_transmission_mode_empty_field_oob fu3EmptyFieldOracle .Fu3 dev0
    "OK+FU3," (by decide) (by decide)).1 (by decide)

/-- C3: `auto_baud` iterates exactly the eight candidates in ascending
numeric order; assuming the local rate changes themselves do not fault,
it returns the first candidate whose `test()` probe succeeds — which then
is the device's recorded local rate — and fails with the auto-baud error
when every candidate's probe fails. -/
theorem auto_baud_first_successful_candidate (o : Oracle) (d : Device)
    (hcb : ∀ r, o.changeBaud r = none) :
    autoBaudCandidates.map BaudRate.toNat =
        [1200, 2400, 4800, 9600, 19200, 38400, 57600, 115200] ∧
    List.Chain' (fun a b => a < b) (autoBaudCandidates.map BaudRate.toNat) ∧
    (∀ br, autoBaudCandidates.find? (fun c => testOk o (BaudRate.toNat c)) = some br →
        auto_baud o d = (.ok br, { d with baudRate := BaudRate.toNat br })) ∧
    (autoBaudCandidates.find? (fun c => testOk o (BaudRate.toNat c)) = none →
        (auto_baud o d).1 = .error (.hc12 .AutoBaudRate)) := by
  refine ⟨by decide, by norm_num [autoBaudCandidates, BaudRate.toNat, List.chain'_cons], ?_, ?_⟩
  · intro br h
    exact (autoBaudLoop_find o hcb autoBaudCandidates d).1 br h
  · intro h
    exact (autoBaudLoop_find o hcb autoBaudCandidates d).2 h

/-- Witness for C3: against a fault-free module answering `OK\r\n` at
every rate, the first candidate (1200 baud) is detected and recorded. -/
theorem auto_baud_first_successful_candidate_witness :
    auto_baud okOracle dev0 = (.ok .Baud1200, { dev0 with baudRate := 1200 }) :=
  (auto_baud_first_successful_candidate okOracle dev0
    (fun _ => rfl)).2.2.1 .Baud1200 (by decide)

/-- C10: `auto_baud` is not atomic in its effect on the local UART rate:
when it fails with the auto-baud-detection error after exhausting all
eight candidates, the device's local rate is left at 115200 (the last
candidate tried), not restored to its pre-call value. -/
theorem auto_baud_failure_leaves_115200 (o : Oracle) (d : Device)
    (h : (auto_baud o d).1 = .error (.hc12 .AutoBaudRate)) :
    (auto_baud o d).2.baudRate = 115200 := by
  have hpair : autoBaudLoop o autoBaudCandidates d =
      ((auto_baud o d).1, (auto_baud o d).2) := rfl
  rw [h] at hpair
  have hex := autoBaudLoop_exhaust o autoBaudCandidates d (auto_baud o d).2 hpair
  have hl : autoBaudCandidates.getLast? = some .Baud115200 := by decide
  rw [hl] at hex
  exact hex

/-- Witness for C10: against a module that never answers, detection fails
and the device is left at 115200 baud (it started at 9600). -/
theorem auto_baud_failure_leaves_115200_witness :
    (auto_baud failOracle dev0).2.baudRate = 115200 :=
  auto_baud_failure_leaves_115200 failOracle dev0 (by decide)

/-- C6 counterexample: a transport error arising inside an `auto_baud`
probe is NOT propagated.  With a transport fault (code 77) on the read at
1200 baud and a clean `OK\r\n` at 2400 baud, the probe transaction at
1200 baud fails with the transport error, yet `auto_baud` swallows it
(`is_ok()`) and returns `Ok(Baud2400)` instead of the error. -/
theorem auto_baud_probe_swallows_transport_error :
    sendCommand probeFaultOracle "AT" 1200 = .error (.transport 77) ∧
    (auto_baud probeFaultOracle dev0).1 = .ok .Baud2400 := by
  decide

/-- C6 (amended): transport errors are propagated immediately and
verbatim by `test`, `set_baud`, `set_transmission_mode`, `set_default`,
and by the `change_baudrate` calls inside `auto_baud`; but a transport
error inside an `auto_baud` probe transaction is swallowed (treated as
candidate failure), so a fault-free `change_baudrate` run of `auto_baud`
never surfaces a transport error at all. -/
theorem transport_errors_propagate_verbatim (o : Oracle) (d : Device) (e : Nat)
    (br : BaudRate) (tm : TransmissionMode) :
    (sendCommand o "AT" d.baudRate = .error (.transport e) →
        (test o d).1 = .error (.transport e)) ∧
    (sendCommand o ("AT+B" ++ decimalStr (BaudRate.toNat br)) d.baudRate =
          .error (.transport e) →
        (set_baud o br d).1 = .error (.transport e)) ∧
    (sendCommand o ("AT+FU" ++ decimalStr (TransmissionMode.toNat tm)) d.baudRate =
          .error (.transport e) →
        (set_transmission_mode o tm d).1 = .err (.transport e)) ∧
    (sendCommand o "AT+DEFAULT" d.baudRate = .error (.transport e) →
        (set_default o d).1 = .error (.transport e)) ∧
    (o.changeBaud 1200 = some e → (auto_baud o d).1 = .error (.transport e)) ∧
    ((∀ r, o.changeBaud r = none) →
        ∀ e2, (auto_baud o d).1 ≠ .error (.transport e2)) := by
  refine ⟨fun h => by unfold test; rw [h],
    fun h => by simp only [set_baud]; rw [h],
    fun h => by simp only [set_transmission_mode]; rw [h],
    fun h => by unfold set_default; rw [h], ?_, ?_⟩
  · intro h
    have hstep : autoBaudLoop o autoBaudCandidates d = (.error (.transport e), d) := by
      conv_lhs => unfold autoBaudCandidates autoBaudLoop
      simp only [BaudRate.toNat]
      rw [h]
    have : auto_baud o d = (.error (.transport e), d) := hstep
    rw [this]
  · intro hcb e2 h
    cases hf : autoBaudCandidates.find? (fun c => testOk o (BaudRate.toNat c)) with
    | some br2 =>
      have := (autoBaudLoop_find o hcb autoBaudCandidates d).1 br2 hf
      have h1 : (auto_baud o d).1 = .ok br2 := by
        rw [show (auto_baud o d) = autoBaudLoop o autoBaudCandidates d from rfl, this]
      rw [h1] at h
      cases h
    | none =>
      have h1 := (autoBaudLoop_find o hcb autoBaudCandidates d).2 hf
      have h2 : (auto_baud o d).1 = .error (.hc12 .AutoBaudRate) := h1
      rw [h2] at h
      cases h

/-- Witness for C6 (amended): a transport that faults with code 5 on
buffer-clear and rate-change sees every operation surface exactly
transport error 5, while a fault-free never-answering module makes
`auto_baud` fail without any transport error. -/
theorem transport_errors_propagate_verbatim_witness :
    (test brokenOracle dev0).1 = .error (.transport 5) ∧
    (set_baud brokenOracle .Baud9600 dev0).1 = .error (.transport 5) ∧
    (set_transmission_mode brokenOracle .Fu1 dev0).1 = .err (.transport 5) ∧
    (set_default brokenOracle dev0).1 = .error (.transport 5) ∧
    (auto_baud brokenOracle dev0).1 = .error (.transport 5) ∧
    (auto_baud failOracle dev0).1 ≠ .error (.transport 9) := by
  have hb := transport_errors_propagate_verbatim brokenOracle dev0 5 .Baud9600 .Fu1
  have hf := transport_errors_propagate_verbatim failOracle dev0 5 .Baud9600 .Fu1
  exact ⟨hb.1 (by decide), hb.2.1 (by decide), hb.2.2.1 (by decide),
    hb.2.2.2.1 (by decide), hb.2.2.2.2.1 (by decide),
    hf.2.2.2.2.2 (fun _ => rfl) 9⟩

/-- C1: closing a session — after a successful operation or after an
`Err` early return alike — unconditionally drives the mode line back high
and resets `last_command_exit` to the closing instant, so no session ends
in the Active state with the mode line low. -/
theorem session_close_restores_idle (o : Oracle) (op : SessionOp)
    (tEnter tExit : Nat) (d : Device)
    (h : (runSession o op tEnter tExit d).1 ≠ OpStatus.aborted) :
    (runSession o op tEnter tExit d).2.modeLow = false ∧
    (runSession o op tEnter tExit d).2.lastCommandExit = tExit := by
  rcases hr : runOp o op { d with modeLow := true } with ⟨st, d2⟩
  cases st with
  | aborted =>
    exfalso
    apply h
    simp [runSession, commandNew, hr]
  | success =>
    constructor <;> simp [runSession, commandNew, hr, commandDrop]
  | failed e =>
    constructor <;> simp [runSession, commandNew, hr, commandDrop]

/-- Witness for C1: a concrete session around a successful `test` ends
with the mode line high and the quiet-window timestamp at the closing
instant. -/
theorem session_close_restores_idle_witness :
    (runSession okOracle .opTest 0 500 dev0).2.modeLow = false ∧
    (runSession okOracle .opTest 0 500 dev0).2.lastCommandExit = 500 :=
  session_close_restores_idle okOracle .opTest 0 500 dev0 (by decide)

end Hc12Model
